import Mathlib

/-!
Shallow embedding of the sonos-web-cli lifecycle manager (src/index.js).

The repository holds two variants of the same script.  The primary variant
(the first script in src/index.js) installs to `~/.sonos-web`, checks
installation by the existence of `src/server.js` under the install
directory, checks "running" by the existence of a pid file, and gates the
logging inside `asyncExec` on the existence of `install.log`.  The
secondary variant (the second script) records the install directory in a
JSON config file next to the globally installed CLI package and passes the
log file to `asyncExec` explicitly.

The filesystem and the external collaborators (source fetch tool, npm, the
`forever` process supervisor, network-address discovery) are modelled by
an explicit state record `St` and an oracle record `Oracle` that fixes the
outcome of every external invocation.  Each lifecycle action is a function
`Oracle → St → St × Out`, where `Out` records the console messages, the
process exit (`some c` when `shell.exit c` was called, `none` for a normal
return, i.e. process exit code 0) and the supervisor commands that were
invoked.  ANSI color codes produced by the `colors` package and the
spinner animation are presentation only and are elided from the message
strings; host-dependent absolute path prefixes in command strings are
likewise elided.
-/

namespace SonosWeb

/-- Helper: `hasPre n h` is true iff the character list `n` is a prefix of `h`. -/
def hasPre : List Char → List Char → Bool
  | [], _ => true
  | _ :: _, [] => false
  | a :: as, b :: bs => a == b && hasPre as bs

/-- Helper: `hasSubL n h` is true iff `n` occurs as a contiguous run inside `h`:
the semantics of JS `String.prototype.includes` on character lists. -/
def hasSubL (needle : List Char) : List Char → Bool
  | [] => hasPre needle []
  | c :: cs => hasPre needle (c :: cs) || hasSubL needle cs

/-- JS `hay.includes(needle)`. -/
def hasSub (needle hay : String) : Bool :=
  hasSubL needle.toList hay.toList

/-- JS `String.prototype.split` with a single-character separator, on
character lists.  `"a=b=c".split('=') = ["a","b","c"]`; the result is
always non-empty and splitting `""` gives `[""]`, as in JS. -/
def jsSplit (sep : Char) : List Char → List (List Char)
  | [] => [[]]
  | c :: cs =>
    match jsSplit sep cs with
    | [] => [[]]
    | t :: ts => if c == sep then [] :: t :: ts else (c :: t) :: ts

/-- JS `s.split(sep)` on strings. -/
def jsSplitStr (sep : Char) (s : String) : List String :=
  (jsSplit sep s.toList).map String.mk

/-- Result of one external command: exit code and captured output, as
delivered to the `shell.exec` callback. -/
structure ExecRes where
  code : Int
  stdout : String
  stderr : String
deriving Repr, DecidableEq

/-- The outcomes of all external invocations a lifecycle action can make,
plus externally resolved values (the `forever` binary path, the host IP
returned by `ip.address()`, the content of the downloaded tree's
`server/.env.production`).  The mutable world outside the model's own
marker files is fixed by this record. -/
structure Oracle where
  foreverPath : String
  localIP : String
  mkdirOk : Bool
  downloadOk : Bool
  downloadErr : String
  npmInstallClient : ExecRes
  npmRunBuild : ExecRes
  npmInstallServer : ExecRes
  foreverStart : ExecRes
  foreverStop : ExecRes
  removeOk : Bool
  envProduction : String

/-- The disk-resident state the script reads and writes, projected to the
marker files and file contents the script actually consults:
existence of the install directory, of `src/server.js` (the
`isInstalled` marker), of the pid file (the `isRunning` marker), the
content of `install.log` (`none` = file absent), the content of `.env`
(`none` = file absent), and whether the freshly downloaded source tree
(`client/`, `server/`, `server/.env.production`, ...) is present. -/
structure St where
  installDir : Bool
  serverJs : Bool
  pidFile : Bool
  installLog : Option String
  envFile : Option String
  tree : Bool
deriving Repr, DecidableEq

/-- Observable output of one lifecycle action: console messages in order,
the process exit (`some c` for `shell.exit c`, `none` for a normal return,
which ends the process with exit code 0), and the supervisor commands that
were handed to `asyncExec`. -/
structure Out where
  msgs : List String
  exitCode : Option Nat
  supervisorCmds : List String
deriving Repr, DecidableEq

/-- Predicate `isInstalled`: `shell.test('-f', installPath + "/src/server.js")`. -/
def isInstalled (s : St) : Bool := s.serverJs

/-- Predicate `isRunning`: `shell.test('-f', pidFile)`. -/
def isRunning (s : St) : Bool := s.pidFile

/-- The logging step inside the primary variant's `asyncExec`: the
captured stdout and stderr are appended to `install.log` iff that file
exists at the time of the invocation (`shell.test('-f', installLogFile)`);
otherwise the output is discarded. -/
def appendLog (installLog : Option String) (r : ExecRes) : Option String :=
  match installLog with
  | some c => some (c ++ r.stdout ++ r.stderr)
  | none => none

/-- Primary variant's `asyncExec`: runs the command (its outcome `r` is
supplied by the oracle), appends output to `install.log` when that file
exists, then resolves with the captured stdout on exit code 0 and rejects
with the exit code otherwise.  Returns the promise outcome and the new
`install.log` content. -/
def asyncExec (r : ExecRes) (installLog : Option String) :
    Except Int String × Option String :=
  let log := appendLog installLog r
  if r.code ≠ 0 then (Except.error r.code, log) else (Except.ok r.stdout, log)

/-- Secondary variant's `asyncExec(command, logFile)`: output is appended
iff a log file argument was supplied.  Returns the promise outcome and the
content of that log file after the call. -/
def asyncExecV (r : ExecRes) (logSupplied : Bool) (logContent : String) :
    Except Int String × String :=
  let c := if logSupplied then logContent ++ r.stdout ++ r.stderr else logContent
  if r.code ≠ 0 then (Except.error r.code, c) else (Except.ok r.stdout, c)

/-- Console helper `logError` prefixes its description with "error " (bold red). -/
def logErrorMsg (description : String) : String := "error " ++ description

/-- Console helper `logSuccess` prefixes its description with "success " (bold green). -/
def logSuccessMsg (description : String) : String := "success " ++ description

/-- Console helper `logInfo` (secondary variant) prefixes with "info " (bold magenta). -/
def logInfoMsg (description : String) : String := "info " ++ description

def noPortErrorMessage : String := "Could not find PORT environment variable"

def alreadyRunningMessage : String := "Sonos Web is already running"

def noInstallationFoundMessage : String :=
  "No installation found...run sonos-web install to get started"

/-- Stand-in for the message of the error `fs.readFile('.env')` rejects
with when the file is missing; it reaches the `default` branch of
`start`'s catch. -/
def envReadErrorMessage : String := "ENOENT: no such file or directory, open .env"

def notRunningMessage : String := "Sonos Web isn't running"

def notInstalledMessage : String := "Sonos Web isn't installed"

def stoppingIfRunningMessage : String := "Stopping Sonos Web if it is running..."

def alreadyInstalledMessage : String := "Sonos Web is already installed"

def updateHintMessage : String :=
  "You may run sonos-web update to remove the old installation and reinstall"

def installingMessage : String := "Installing Sonos Web"

def mkdirFailedMessage : String := logErrorMsg "Could not create install directory"

def installFailedMessage : String :=
  logErrorMsg "installation failed...check install.log for more details"

def uninstallFailedMessage : String := logErrorMsg "uninstall failed"

/-- Success line printed by `start` on success. -/
def localhostMessage (port : String) : String :=
  logSuccessMsg ("Open a web browser on this computer to http://localhost:" ++
    port ++ " to start!")

/-- Network-wide access line printed by `start` on success. -/
def networkMessage (ipAddr port : String) : String :=
  "You can access Sonos Web network-wide by going to http://" ++ ipAddr ++ ":" ++ port

/-- The `forever ... start src/server.js` supervisor command built in
`start` (host-dependent absolute path prefixes elided). -/
def foreverStartCmd (o : Oracle) : String :=
  o.foreverPath ++ " --pidFile sonos-web.pid -a -l forever.log -o sonos-web.log" ++
    " -e sonos-web.log start src/server.js"

/-- The `forever stop src/server.js` supervisor command built in `stop`. -/
def foreverStopCmd (o : Oracle) : String := o.foreverPath ++ " stop src/server.js"

/-- Line 83: `envFile.toString().split('\n').find(env => env.includes('PORT='))` —
the first line of the environment file that contains the substring
`PORT=` anywhere in the line. -/
def findPortEnv (lines : List String) : Option String :=
  lines.find? (fun l => hasSub "PORT=" l)

/-- Line 94: `portEnv.split('=')[1]` — element 1 of the JS split of the
matched line on `'='`. -/
def portOf (l : String) : String :=
  String.mk ((jsSplit '=' l.toList).getD 1 [])

/-- Action `start` (primary variant, lines 69-116).  Precondition checks, `.env`
read, port extraction, supervisor launch, URL report.  On supervisor
success `forever` creates the pid file (the external supervisor contract
the source comments on at lines 75-76). -/
def start (o : Oracle) (s : St) : St × Out :=
  if !isInstalled s then
    (s, ⟨[logErrorMsg noInstallationFoundMessage], some 1, []⟩)
  else if isRunning s then
    (s, ⟨[alreadyRunningMessage], some 1, []⟩)
  else
    match s.envFile with
    | none =>
      (s, ⟨[logErrorMsg envReadErrorMessage], some 1, []⟩)
    | some env =>
      match findPortEnv (jsSplitStr '\n' env) with
      | none => (s, ⟨[logErrorMsg noPortErrorMessage], some 1, []⟩)
      | some portEnv =>
        let r := asyncExec o.foreverStart s.installLog
        match r.1 with
        | Except.error c =>
          ({ s with installLog := r.2 },
            ⟨[logErrorMsg (toString c)], some 1, [foreverStartCmd o]⟩)
        | Except.ok _ =>
          let port := portOf portEnv
          ({ s with installLog := r.2, pidFile := true },
            ⟨["", localhostMessage port, networkMessage o.localIP port],
              none, [foreverStartCmd o]⟩)

/-- Action `stop` (primary variant, lines 118-134).  A missing pid file is
reported informationally and the function returns normally; a supervisor
failure is logged but never reaches `shell.exit`.  On supervisor success
`forever` removes the pid file (external supervisor contract). -/
def stop (o : Oracle) (s : St) : St × Out :=
  if !isRunning s then
    (s, ⟨[notRunningMessage], none, []⟩)
  else
    let r := asyncExec o.foreverStop s.installLog
    match r.1 with
    | Except.error c =>
      ({ s with installLog := r.2 },
        ⟨[logErrorMsg (toString c)], none, [foreverStopCmd o]⟩)
    | Except.ok _ =>
      ({ s with installLog := r.2, pidFile := false },
        ⟨[], none, [foreverStopCmd o]⟩)

/-- Action `uninstall` (primary variant, lines 136-154): no-op message when the
install directory is absent; otherwise `stop` (which never exits the
process) followed by recursive removal of the install directory, which
deletes every file under it; removal failure exits 1. -/
def uninstall (o : Oracle) (s : St) : St × Out :=
  if !s.installDir then
    (s, ⟨[notInstalledMessage], none, []⟩)
  else
    let p := stop o s
    if o.removeOk then
      (⟨false, false, false, none, none, false⟩,
        ⟨stoppingIfRunningMessage :: p.2.msgs, none, p.2.supervisorCmds⟩)
    else
      (p.1,
        ⟨stoppingIfRunningMessage :: p.2.msgs ++ [uninstallFailedMessage],
          some 1, p.2.supervisorCmds⟩)

/-- Action `install` (primary variant, lines 156-225).  Precondition check, then
`shell.mkdir` (which fails when the directory already exists or on a
filesystem error), then the download callback: `install.log` is truncated
to empty before the error check, a download error is written to it and the
process exits 1; otherwise the npm steps run through `asyncExec` (each
failure exits 1 pointing at the log), the cleanup relocates
`server/src/server.js` to `src/server.js` and renames
`server/.env.production` to `.env` (the `shell.mv` calls do not throw and
the model's filesystem gives the `fs.remove` cleanup calls no failure
mode), and finally `start` runs. -/
def install (o : Oracle) (s : St) : St × Out :=
  if isInstalled s then
    (s, ⟨[alreadyInstalledMessage, updateHintMessage], some 1, []⟩)
  else if s.installDir || !o.mkdirOk then
    (s, ⟨[installingMessage, mkdirFailedMessage], some 1, []⟩)
  else if !o.downloadOk then
    ({ s with installDir := true, installLog := some o.downloadErr },
      ⟨[installingMessage], some 1, []⟩)
  else
    let s2 : St := { s with installDir := true, installLog := some "", tree := true }
    let r1 := asyncExec o.npmInstallClient s2.installLog
    match r1.1 with
    | Except.error _ =>
      ({ s2 with installLog := r1.2 },
        ⟨[installingMessage, installFailedMessage], some 1, []⟩)
    | Except.ok _ =>
      let r2 := asyncExec o.npmRunBuild r1.2
      match r2.1 with
      | Except.error _ =>
        ({ s2 with installLog := r2.2 },
          ⟨[installingMessage, installFailedMessage], some 1, []⟩)
      | Except.ok _ =>
        let r3 := asyncExec o.npmInstallServer r2.2
        match r3.1 with
        | Except.error _ =>
          ({ s2 with installLog := r3.2 },
            ⟨[installingMessage, installFailedMessage], some 1, []⟩)
        | Except.ok _ =>
          let s3 : St :=
            { s2 with
              installLog := r3.2, serverJs := true,
              envFile := some o.envProduction, tree := false }
          let p := start o s3
          (p.1, ⟨installingMessage :: p.2.msgs, p.2.exitCode, p.2.supervisorCmds⟩)

/-- Sequential composition of two lifecycle actions within one process:
if the first calls `shell.exit`, the process is gone and the second never
runs; otherwise the second runs on the first's resulting state and the
observable outputs concatenate. -/
def seqAct (a b : St → St × Out) (s : St) : St × Out :=
  let p := a s
  match p.2.exitCode with
  | some _ => p
  | none =>
    let q := b p.1
    (q.1, ⟨p.2.msgs ++ q.2.msgs, q.2.exitCode,
      p.2.supervisorCmds ++ q.2.supervisorCmds⟩)

/-- Action `update` (primary variant, lines 227-230): `await uninstall()` then
`await install()` in the same process. -/
def update (o : Oracle) (s : St) : St × Out :=
  seqAct (uninstall o) (install o) s

/-- Secondary variant's `stop` (lines 355-373): resolving the recorded
installation path can fail (`configOk = false`), which is fatal; a failure
of `forever stop src/server.js` itself is downgraded to the informational
"isn't running" message, with no `shell.exit`.  The secondary variant's
`asyncExec` is called without a log file. -/
def stopV (configOk : Bool) (r : ExecRes) : Out :=
  if !configOk then
    ⟨[logErrorMsg "no installation found"], some 1, []⟩
  else
    match (asyncExecV r false "").1 with
    | Except.error _ =>
      ⟨[logInfoMsg notRunningMessage], none, ["forever stop src/server.js"]⟩
    | Except.ok _ => ⟨[], none, ["forever stop src/server.js"]⟩

/-- Physical well-formedness of a disk state: the files the script keeps
under the install directory (`src/server.js`, the pid file, `install.log`,
`.env`) can only exist when that directory itself exists. -/
def WFSt (s : St) : Prop :=
  (s.serverJs → s.installDir) ∧ (s.pidFile → s.installDir) ∧
    (s.installLog.isSome → s.installDir) ∧ (s.envFile.isSome → s.installDir)

/-- The characters strictly between the first and the second `'='` of a
line (everything after the first `'='` when there is no second one). -/
def betweenEq (l : List Char) : List Char :=
  (((l.dropWhile (fun c => !(c == '='))).drop 1).takeWhile (fun c => !(c == '=')))

/-- Sample run of the external world in which every step succeeds and the
downloaded tree's environment template holds a single `PORT=5050` line. -/
def allOk : Oracle :=
  { foreverPath := "forever", localIP := "192.168.1.10", mkdirOk := true,
    downloadOk := true, downloadErr := "", npmInstallClient := ⟨0, "client\n", ""⟩,
    npmRunBuild := ⟨0, "built\n", ""⟩, npmInstallServer := ⟨0, "server\n", ""⟩,
    foreverStart := ⟨0, "", ""⟩, foreverStop := ⟨0, "", ""⟩,
    removeOk := true, envProduction := "PORT=5050" }

/-- Sample run of the external world in which `forever stop` fails. -/
def stopFails : Oracle :=
  { allOk with foreverStop := ⟨1, "no process\n", "boom\n"⟩ }

/-- Disk state with nothing installed. -/
def stEmpty : St := ⟨false, false, false, none, none, false⟩

/-- Disk state of a completed installation that is not running. -/
def stInstalled : St := ⟨true, true, false, some "old log", some "PORT=5050", false⟩

/-- Disk state of a completed installation that is running. -/
def stRunning : St := ⟨true, true, true, some "old log", some "PORT=5050", false⟩

/- ------------------------------------------------------------------ -/
/- Helper lemmas                                                       -/
/- ------------------------------------------------------------------ -/

/-- A lifecycle `start` never touches the `src/server.js` marker. -/
theorem start_serverJs (o : Oracle) (s : St) : (start o s).1.serverJs = s.serverJs := by
  unfold start
  dsimp only
  repeat' split
  all_goals rfl

/-- Reflexivity of the prefix test. -/
theorem hasPre_refl (l : List Char) : hasPre l l = true := by
  induction l with
  | nil => rfl
  | cons a as ih => simp [hasPre, ih]

/-- A needle occurs in any hay that ends with it. -/
theorem hasSubL_append_self (n p : List Char) : hasSubL n (p ++ n) = true := by
  induction p with
  | nil =>
    cases n with
    | nil => rfl
    | cons c cs => simp [hasSubL, hasPre_refl]
  | cons c cs ih => simp [hasSubL, ih]

/-- Every character of a successfully matched prefix occurs in the hay. -/
theorem hasPre_mem (n h : List Char) (hp : hasPre n h = true) :
    ∀ c, c ∈ n → c ∈ h := by
  induction n generalizing h with
  | nil => intro c hc; cases hc
  | cons a as ih =>
    cases h with
    | nil => cases hp
    | cons b bs =>
      simp only [hasPre, Bool.and_eq_true, beq_iff_eq] at hp
      intro c hc
      rcases List.mem_cons.mp hc with hc | hc
      · exact List.mem_cons.mpr (Or.inl (hc.trans hp.1))
      · exact List.mem_cons.mpr (Or.inr (ih bs hp.2 c hc))

/-- Every character of a successfully matched needle occurs in the hay. -/
theorem hasSubL_mem (n h : List Char) (hs : hasSubL n h = true) :
    ∀ c, c ∈ n → c ∈ h := by
  induction h with
  | nil =>
    cases n with
    | nil => intro c hc; cases hc
    | cons a as => cases hs
  | cons b bs ih =>
    simp only [hasSubL, Bool.or_eq_true] at hs
    rcases hs with hs | hs
    · exact hasPre_mem _ _ hs
    · intro c hc; exact List.mem_cons.mpr (Or.inr (ih hs c hc))

/-- Head of a JS split: everything before the first separator. -/
theorem jsSplit_head (sep : Char) (l : List Char) :
    (jsSplit sep l).head? = some (l.takeWhile (fun c => !(c == sep))) := by
  induction l with
  | nil => rfl
  | cons c cs ih =>
    simp only [jsSplit]
    cases hj : jsSplit sep cs with
    | nil => simp [hj] at ih
    | cons t ts =>
      rw [hj] at ih
      simp only [List.head?, Option.some.injEq] at ih
      cases hcb : (c == sep) with
      | true => simp [hcb, List.takeWhile_cons]
      | false => simp [hcb, List.takeWhile_cons, ih]

/-- Element 1 of a JS split on a list containing the separator: the
characters between the first and the second separator occurrence. -/
theorem jsSplit_get1 (sep : Char) (l : List Char) (h : sep ∈ l) :
    (jsSplit sep l).getD 1 [] =
      (((l.dropWhile (fun c => !(c == sep))).drop 1).takeWhile (fun c => !(c == sep))) := by
  induction l with
  | nil => cases h
  | cons c cs ih =>
    simp only [jsSplit]
    cases hj : jsSplit sep cs with
    | nil =>
      exfalso
      have hh := jsSplit_head sep cs
      simp [hj] at hh
    | cons t ts =>
      cases hcb : (c == sep) with
      | true =>
        have hh := jsSplit_head sep cs
        rw [hj] at hh
        simp only [List.head?, Option.some.injEq] at hh
        simp [hcb, List.dropWhile_cons, List.getD_cons_succ, List.getD_cons_zero, hh]
      | false =>
        have hcn : c ≠ sep := by simpa using hcb
        have hmem : sep ∈ cs := by
          rcases List.mem_cons.mp h with h1 | h1
          · exact absurd h1.symm hcn
          · exact h1
        have hrec := ih hmem
        rw [hj] at hrec
        simp only [List.getD_cons_succ] at hrec ⊢
        simpa [hcb, List.dropWhile_cons, List.drop_one, List.getD] using hrec

/- ------------------------------------------------------------------ -/
/- Claim theorems                                                      -/
/- ------------------------------------------------------------------ -/

/-- C1: for every starting state (and fixed behavior of the external
world), `update` produces exactly the run of `uninstall` immediately
followed by `install` on that state — same end state and same observable
output; in particular, when `uninstall` returns normally, `update`'s end
state is `install`'s end state on `uninstall`'s end state. -/
theorem update_is_uninstall_then_install (o : Oracle) (s : St) :
    update o s = seqAct (uninstall o) (install o) s ∧
      ((uninstall o s).2.exitCode = none →
        (update o s).1 = (install o (uninstall o s).1).1) := by
  refine ⟨rfl, fun h => ?_⟩
  unfold update seqAct
  dsimp only
  rw [h]

/-- Witness for C1 at a concrete empty starting state. -/
theorem update_is_uninstall_then_install_witness :
    update allOk stEmpty = seqAct (uninstall allOk) (install allOk) stEmpty ∧
      (update allOk stEmpty).1 = (install allOk (uninstall allOk stEmpty).1).1 :=
  ⟨(update_is_uninstall_then_install allOk stEmpty).1,
    (update_is_uninstall_then_install allOk stEmpty).2 rfl⟩

/-- C3: when `isInstalled` already holds, `install` prints the
already-installed report and the hint to use `update`, exits with the
nonzero code 1, performs no mutation (the end state is the start state),
and invokes nothing. -/
theorem install_when_already_installed (o : Oracle) (s : St)
    (h : isInstalled s = true) :
    install o s = (s, ⟨[alreadyInstalledMessage, updateHintMessage], some 1, []⟩) := by
  unfold install
  simp [h]

/-- Witness for C3 at a concrete installed state. -/
theorem install_when_already_installed_witness :
    isInstalled stInstalled = true ∧
      install allOk stInstalled =
        (stInstalled, ⟨[alreadyInstalledMessage, updateHintMessage], some 1, []⟩) :=
  ⟨rfl, install_when_already_installed allOk stInstalled rfl⟩

/-- C4: when `isInstalled` is false, `start` exits with code 1, reports
exactly the no-installation-found classification, leaves the state
untouched (so in particular no pid file appears), and invokes no
supervisor command. -/
theorem start_when_not_installed (o : Oracle) (s : St)
    (h : isInstalled s = false) :
    start o s = (s, ⟨[logErrorMsg noInstallationFoundMessage], some 1, []⟩) := by
  unfold start
  simp [h]

/-- Witness for C4 at the concrete empty state. -/
theorem start_when_not_installed_witness :
    isInstalled stEmpty = false ∧
      start allOk stEmpty =
        (stEmpty, ⟨[logErrorMsg noInstallationFoundMessage], some 1, []⟩) :=
  ⟨rfl, start_when_not_installed allOk stEmpty rfl⟩

/-- C6: the process runner resolves with the captured stdout on exit code
0; on a nonzero exit it rejects with that exit code, and when a log file
is in effect (the primary variant: `install.log` exists; the secondary
variant: a log file argument was supplied) the captured stdout and stderr
are appended to the log as part of the same call, so they survive the
rejection. -/
theorem asyncExec_resolution_and_logging (r : ExecRes) (log : Option String)
    (b : Bool) (c : String) :
    (r.code = 0 →
      (asyncExec r log).1 = Except.ok r.stdout ∧
        (asyncExecV r b c).1 = Except.ok r.stdout) ∧
      (r.code ≠ 0 →
        (asyncExec r log).1 = Except.error r.code ∧
          (∀ c0, (asyncExec r (some c0)).2 = some (c0 ++ r.stdout ++ r.stderr)) ∧
          (asyncExecV r true c).1 = Except.error r.code ∧
          (asyncExecV r true c).2 = c ++ r.stdout ++ r.stderr) := by
  unfold asyncExec asyncExecV appendLog
  constructor
  · intro h
    simp [h]
  · intro h
    simp [h]

/-- Witness for C6: a succeeding and a failing command at concrete
inputs. -/
theorem asyncExec_resolution_and_logging_witness :
    (asyncExec ⟨0, "out", ""⟩ (some "pre")).1 = Except.ok "out" ∧
      (asyncExec ⟨2, "out", "err"⟩ (some "pre")).2 = some ("pre" ++ "out" ++ "err") :=
  ⟨((asyncExec_resolution_and_logging ⟨0, "out", ""⟩ (some "pre") false "").1
      rfl).1,
    ((asyncExec_resolution_and_logging ⟨2, "out", "err"⟩ (some "pre") false "").2
      (by decide)).2.1 "pre"⟩

/-- C7: when no pid file exists, `stop` prints the informational
isn't-running message, returns normally (process exit code 0, not an
error), invokes no supervisor command and mutates nothing. -/
theorem stop_when_not_running (o : Oracle) (s : St)
    (h : isRunning s = false) :
    stop o s = (s, ⟨[notRunningMessage], none, []⟩) := by
  unfold stop
  simp [h]

/-- Witness for C7 at the concrete installed-but-stopped state. -/
theorem stop_when_not_running_witness :
    isRunning stInstalled = false ∧
      stop allOk stInstalled = (stInstalled, ⟨[notRunningMessage], none, []⟩) :=
  ⟨rfl, stop_when_not_running allOk stInstalled rfl⟩

/-- The second component of `asyncExec` is always the gated log append. -/
theorem asyncExec_snd (r : ExecRes) (log : Option String) :
    (asyncExec r log).2 = appendLog log r := by
  unfold asyncExec
  split
  · rfl
  · rfl

/-- Every run of `install` either calls `shell.exit 1` or ends with the
`src/server.js` marker present. -/
theorem install_exit_or_marker (o : Oracle) (s : St) :
    (install o s).2.exitCode = some 1 ∨ (install o s).1.serverJs = true := by
  unfold install
  dsimp only
  repeat' split
  all_goals first
    | exact Or.inl rfl
    | exact Or.inr ((start_serverJs _ _).trans rfl)

/-- C2: an `install` that ran to completion without calling `shell.exit`
(a successful install) leaves `isInstalled` true; an `uninstall` of a
physically well-formed disk state that ran to completion without calling
`shell.exit` leaves `isInstalled` false. -/
theorem install_uninstall_isInstalled (o : Oracle) (s : St) :
    ((install o s).2.exitCode = none → isInstalled (install o s).1 = true) ∧
      (WFSt s → (uninstall o s).2.exitCode = none →
        isInstalled (uninstall o s).1 = false) := by
  constructor
  · intro h
    rcases install_exit_or_marker o s with hk | hk
    · rw [h] at hk
      cases hk
    · exact hk
  · intro hwf h
    unfold uninstall at h ⊢
    by_cases hd : s.installDir
    · simp only [hd, Bool.not_true, if_false, Bool.false_eq_true] at h ⊢
      by_cases hrm : o.removeOk
      · simp [hrm, isInstalled]
      · simp [hrm] at h
    · have hb : s.installDir = false := by
        cases hv : s.installDir
        · rfl
        · exact absurd hv hd
      have hs : s.serverJs = false := by
        cases hsj : s.serverJs
        · rfl
        · have := hwf.1 (by rw [hsj])
          rw [hb] at this
          cases this
      simp [hb, isInstalled, hs]

/-- Witness for C2: a successful install from the empty state and a
successful uninstall of a running installation. -/
theorem install_uninstall_isInstalled_witness :
    isInstalled (install allOk stEmpty).1 = true ∧
      isInstalled (uninstall allOk stRunning).1 = false :=
  ⟨(install_uninstall_isInstalled allOk stEmpty).1 rfl,
    (install_uninstall_isInstalled allOk stRunning).2
      ⟨fun _ => rfl, fun _ => rfl, fun _ => rfl, fun _ => rfl⟩ rfl⟩

/-- C8: a supervisor-reported stop failure is not fatal.  The primary
variant's `stop` invokes the supervisor's stop action and, on its
failure, logs it and returns normally (no nonzero exit); the secondary
variant's `stop` downgrades the failure to the informational
isn't-running report, also with no nonzero exit. -/
theorem stop_supervisor_failure_not_fatal (o : Oracle) (s : St) (r : ExecRes)
    (h : isRunning s = true) (hc : o.foreverStop.code ≠ 0) (hr : r.code ≠ 0) :
    (stop o s).2.exitCode = none ∧
      (stop o s).2.supervisorCmds = [foreverStopCmd o] ∧
      stopV true r =
        ⟨[logInfoMsg notRunningMessage], none, ["forever stop src/server.js"]⟩ := by
  unfold stop stopV asyncExec asyncExecV
  simp [h, hc, hr]

/-- Witness for C8: a running state whose supervisor stop command fails. -/
theorem stop_supervisor_failure_not_fatal_witness :
    (stop stopFails stRunning).2.exitCode = none ∧
      stopV true ⟨7, "o", "e"⟩ =
        ⟨[logInfoMsg notRunningMessage], none, ["forever stop src/server.js"]⟩ :=
  ⟨(stop_supervisor_failure_not_fatal stopFails stRunning ⟨7, "o", "e"⟩ rfl
      (by decide) (by decide)).1,
    (stop_supervisor_failure_not_fatal stopFails stRunning ⟨7, "o", "e"⟩ rfl
      (by decide) (by decide)).2.2⟩

/-- C9: in the primary variant, every invocation of the process runner
appends the captured stdout and stderr to `install.log` iff that file
exists at the time of the call, and discards them when it does not — and
this is exactly the logging that `stop` and `start` perform when they
reach their supervisor invocation, whichever lifecycle action is running. -/
theorem asyncExec_log_iff_log_exists (r : ExecRes) (o : Oracle) (s t : St)
    (env : String) :
    (asyncExec r none).2 = none ∧
      (∀ c, (asyncExec r (some c)).2 = some (c ++ r.stdout ++ r.stderr)) ∧
      (isRunning s = true →
        (stop o s).1.installLog = appendLog s.installLog o.foreverStop) ∧
      (isInstalled t = true → isRunning t = false → t.envFile = some env →
        (findPortEnv (jsSplitStr '\n' env)).isSome = true →
        (start o t).1.installLog = appendLog t.installLog o.foreverStart) := by
  refine ⟨by rw [asyncExec_snd]; rfl, fun c => by rw [asyncExec_snd]; rfl, ?_, ?_⟩
  · intro h
    unfold stop
    cases hx : (asyncExec o.foreverStop s.installLog).1 with
    | error c => simp [h, hx, asyncExec_snd]
    | ok a => simp [h, hx, asyncExec_snd]
  · intro hi hr henv hport
    obtain ⟨l, hl⟩ := Option.isSome_iff_exists.mp hport
    unfold start
    cases hx : (asyncExec o.foreverStart t.installLog).1 with
    | error c => simp [hi, hr, henv, hl, hx, asyncExec_snd]
    | ok a => simp [hi, hr, henv, hl, hx, asyncExec_snd]

/-- Witness for C9 at concrete inputs: a stop with an existing log and a
start with an existing log. -/
theorem asyncExec_log_iff_log_exists_witness :
    (asyncExec ⟨0, "a", "b"⟩ none).2 = none ∧
      (stop stopFails stRunning).1.installLog =
        appendLog stRunning.installLog stopFails.foreverStop ∧
      (start allOk stInstalled).1.installLog =
        appendLog stInstalled.installLog allOk.foreverStart :=
  ⟨(asyncExec_log_iff_log_exists ⟨0, "a", "b"⟩ allOk stRunning stInstalled
      "PORT=5050").1,
    (asyncExec_log_iff_log_exists ⟨0, "a", "b"⟩ stopFails stRunning stInstalled
      "PORT=5050").2.2.1 rfl,
    (asyncExec_log_iff_log_exists ⟨0, "a", "b"⟩ allOk stRunning stInstalled
      "PORT=5050").2.2.2 rfl rfl rfl (by decide)⟩

/-- Environment file whose first `PORT=`-containing line is `REPORT=1`
even though the file also contains the exact line `PORT=5050`. -/
def envCE : String := "REPORT=1\nPORT=5050"

/-- Installed, not-running disk state carrying `envCE` as its `.env`. -/
def stCE : St := ⟨true, true, false, none, some envCE, false⟩

/-- Installed, not-running disk state whose `.env` has no `PORT=` line. -/
def stNoPort : St := ⟨true, true, false, some "", some "HOST=box", false⟩

/-- A needle occurs in any string that ends with it. -/
theorem hasSub_self_suffix (n p : String) : hasSub n (p ++ n) = true := by
  show hasSubL n.data (p ++ n).data = true
  rw [String.data_append]
  exact hasSubL_append_self n.data p.data

/-- The network-wide line printed for port 5050 is the constant banner
followed by the network-address URL. -/
theorem networkMessage_decomp (ip : String) :
    networkMessage ip "5050" =
      "You can access Sonos Web network-wide by going to " ++
        ("http://" ++ ip ++ ":5050") := by
  apply String.ext
  have h1 : ("You can access Sonos Web network-wide by going to http://" : String).data =
      ("You can access Sonos Web network-wide by going to " : String).data ++
        ("http://" : String).data := by decide
  have h2 : (":5050" : String).data =
      (":" : String).data ++ ("5050" : String).data := by decide
  simp [networkMessage, String.data_append, h1, h2]

/-- Fully evaluated successful run of `start`: installed, not running,
environment file present with a matched `PORT=` line, and a supervisor
start invocation that exits 0. -/
theorem start_success_run (o : Oracle) (s : St) (env portLine : String)
    (hinst : isInstalled s = true) (hrun : isRunning s = false)
    (henv : s.envFile = some env)
    (hfind : findPortEnv (jsSplitStr '\n' env) = some portLine)
    (hok : o.foreverStart.code = 0) :
    start o s =
      ({ s with
         installLog := appendLog s.installLog o.foreverStart,
         pidFile := true },
        ⟨["", localhostMessage (portOf portLine),
            networkMessage o.localIP (portOf portLine)],
          none, [foreverStartCmd o]⟩) := by
  unfold start
  have hx : (asyncExec o.foreverStart s.installLog).1 = Except.ok o.foreverStart.stdout := by
    unfold asyncExec
    simp [hok]
  simp [hinst, hrun, henv, hfind, hx, asyncExec_snd]

/-- Counterexample to C5 as stated: this installed, not-running state's
environment file contains the line `PORT=5050`, every external step
succeeds, yet `start` completes without reporting any message containing
`http://localhost:5050`, because an earlier line (`REPORT=1`) is the first
line containing the substring `PORT=` and its port field is `1`. -/
theorem start_port_5050_counterexample :
    ("PORT=5050" ∈ jsSplitStr '\n' envCE) ∧
      isInstalled stCE = true ∧ isRunning stCE = false ∧
      (start allOk stCE).2.exitCode = none ∧
      (∀ m ∈ (start allOk stCE).2.msgs, hasSub "http://localhost:5050" m = false) := by
  decide

/-- C5 (amended): for every installed, not-running state whose
environment file is present and whose first `PORT=`-containing line is
exactly `PORT=5050`, when the supervisor start invocation succeeds,
`start` reports a message containing `http://localhost:5050` and a
message containing the network-address URL `http://<localIP>:5050`; and
for every installed, not-running state whose environment file contains no
`PORT=` line, `start` fails with the distinct no-port classification,
exits 1, and never invokes the process supervisor. -/
theorem start_port_reporting (o : Oracle) (s : St) (env : String)
    (hinst : isInstalled s = true) (hrun : isRunning s = false)
    (henv : s.envFile = some env) :
    (findPortEnv (jsSplitStr '\n' env) = some "PORT=5050" →
        o.foreverStart.code = 0 →
        (start o s).2.exitCode = none ∧
          (∃ m ∈ (start o s).2.msgs, hasSub "http://localhost:5050" m = true) ∧
          (∃ m ∈ (start o s).2.msgs,
            hasSub ("http://" ++ o.localIP ++ ":5050") m = true)) ∧
      (findPortEnv (jsSplitStr '\n' env) = none →
        start o s = (s, ⟨[logErrorMsg noPortErrorMessage], some 1, []⟩)) := by
  constructor
  · intro hfind hok
    have hrunEq := start_success_run o s env "PORT=5050" hinst hrun henv hfind hok
    have hport : portOf "PORT=5050" = "5050" := by decide
    rw [hrunEq, hport]
    refine ⟨rfl, ⟨localhostMessage "5050", by simp, by decide⟩,
      ⟨networkMessage o.localIP "5050", by simp, ?_⟩⟩
    rw [networkMessage_decomp]
    exact hasSub_self_suffix _ _
  · intro hfind
    unfold start
    simp [hinst, hrun, henv, hfind]

/-- Witness for C5 (amended): the standard single-line `PORT=5050`
environment reports both URLs, and a portless environment hits the
no-port classification. -/
theorem start_port_reporting_witness :
    ((start allOk stInstalled).2.exitCode = none ∧
        (∃ m ∈ (start allOk stInstalled).2.msgs,
          hasSub "http://localhost:5050" m = true) ∧
        (∃ m ∈ (start allOk stInstalled).2.msgs,
          hasSub ("http://" ++ allOk.localIP ++ ":5050") m = true)) ∧
      start allOk stNoPort =
        (stNoPort, ⟨[logErrorMsg noPortErrorMessage], some 1, []⟩) :=
  ⟨(start_port_reporting allOk stInstalled "PORT=5050" rfl rfl rfl).1
      (by decide) rfl,
    (start_port_reporting allOk stNoPort "HOST=box" rfl rfl rfl).2 (by decide)⟩

/-- C10: the line `start` uses is the first line of the environment file
that contains the substring `PORT=` anywhere (the selection predicate is
the unanchored substring test, so `REPORT=1` and a commented line both
qualify), and the reported port is the text between the first and the
second `'='` characters of that line. -/
theorem start_port_line_selection (o : Oracle) (s : St) (env portLine : String)
    (hinst : isInstalled s = true) (hrun : isRunning s = false)
    (henv : s.envFile = some env)
    (hfind : findPortEnv (jsSplitStr '\n' env) = some portLine)
    (hok : o.foreverStart.code = 0) :
    findPortEnv (jsSplitStr '\n' env) =
        (jsSplitStr '\n' env).find? (fun l => hasSub "PORT=" l) ∧
      hasSub "PORT=" portLine = true ∧
      hasSub "PORT=" "REPORT=1" = true ∧
      hasSub "PORT=" "# PORT=8080 (commented out)" = true ∧
      portOf portLine = String.mk (betweenEq portLine.toList) ∧
      (start o s).2.msgs =
        ["", localhostMessage (portOf portLine),
          networkMessage o.localIP (portOf portLine)] := by
  have hp : hasSub "PORT=" portLine = true := by
    unfold findPortEnv at hfind
    exact List.find?_some hfind
  have hmem : '=' ∈ portLine.toList := by
    have := hasSubL_mem ("PORT=".toList) portLine.toList hp '=' (by decide)
    exact this
  refine ⟨rfl, hp, by decide, by decide, ?_, ?_⟩
  · unfold portOf betweenEq
    rw [jsSplit_get1 '=' portLine.toList hmem]
  · rw [start_success_run o s env portLine hinst hrun henv hfind hok]

/-- Witness for C10: a file whose first `PORT=`-containing line is the
commented line `# PORT=17`, whose port field (between the two `'='`
characters, there being only one) is `17`. -/
theorem start_port_line_selection_witness :
    hasSub "PORT=" "# PORT=17" = true ∧
      portOf "# PORT=17" = String.mk (betweenEq ("# PORT=17").toList) ∧
      (start allOk ⟨true, true, false, none, some "A=1\n# PORT=17", false⟩).2.msgs =
        ["", localhostMessage (portOf "# PORT=17"),
          networkMessage allOk.localIP (portOf "# PORT=17")] :=
  ⟨(start_port_line_selection allOk
      ⟨true, true, false, none, some "A=1\n# PORT=17", false⟩
      "A=1\n# PORT=17" "# PORT=17" rfl rfl rfl (by decide) rfl).2.1,
    (start_port_line_selection allOk
      ⟨true, true, false, none, some "A=1\n# PORT=17", false⟩
      "A=1\n# PORT=17" "# PORT=17" rfl rfl rfl (by decide) rfl).2.2.2.2.1,
    (start_port_line_selection allOk
      ⟨true, true, false, none, some "A=1\n# PORT=17", false⟩
      "A=1\n# PORT=17" "# PORT=17" rfl rfl rfl (by decide) rfl).2.2.2.2.2⟩

end SonosWeb
